import Mathlib

/-!
Shallow embedding of the `pixie79/weather` EnvironW proxy
(`src/environw_proxy/process.py`, `objects.py`, `lambda_handler.py`).

Python floats are modelled as exact rationals (`ℚ`), Python ints as `ℤ`,
`os.environ` as a map `String → Option String`, and the outbound
HTTP layer (`requests`) as an oracle `HttpRequest → Option HttpResponse`
where `none` models a raised `requests.exceptions.RequestException`
(network-level fault) and `some r` models a completed HTTP response `r`.
A Python function that can raise an exception that its callers do not
catch is embedded with result type `Except String _`, `Except.error`
being the uncaught exception.  Each publisher additionally returns the
list of HTTP requests it issued, so that "no network call was made" is
expressible as that list being empty.
-/

/-! ## Generic string helpers -/

/-- Concatenation of the images of each character (used to model
per-character string rewriting such as percent-encoding). -/
def flatMapChars (f : Char → List Char) (cs : List Char) : List Char :=
  cs.foldr (fun c acc => f c ++ acc) []

/-- The Python substring containment test `needle in haystack`. -/
def strContains (haystack needle : String) : Bool :=
  (List.range (haystack.data.length + 1)).any
    (fun i => needle.data == ((haystack.data.drop i).take needle.data.length))

/-- Left-pad the decimal rendering of `n` with zeros to `width` digits
(`strftime`-style zero padding). -/
def padNum (width n : Nat) : String :=
  let s := toString n
  String.mk (List.replicate (width - s.length) '0') ++ s

/-! ## `urllib.parse.quote_plus` (restricted to one-byte characters,
which is all the repository ever encodes) -/

/-- Characters `quote_plus` leaves unescaped: ASCII alphanumerics and
`_.-~`. -/
def isQuotePlusSafe (c : Char) : Bool :=
  (c.isAlpha && c.toNat < 128) || c.isDigit || c == '_' || c == '.' || c == '-' || c == '~'

/-- Upper-case hexadecimal digit for `0 ≤ n < 16`. -/
def hexDigitChar (n : Nat) : Char :=
  if n < 10 then Char.ofNat (48 + n) else Char.ofNat (55 + n)

/-- `%XX` escape of one character (ASCII range). -/
def percentEncodeChar (c : Char) : List Char :=
  ['%', hexDigitChar (c.toNat / 16), hexDigitChar (c.toNat % 16)]

/-- Model of `urllib.parse.quote_plus`: spaces become `+`, safe
characters pass through, everything else is `%XX`-escaped. -/
def quote_plus (s : String) : String :=
  String.mk (flatMapChars
    (fun c =>
      if c == ' ' then ['+']
      else if isQuotePlusSafe c then [c]
      else percentEncodeChar c)
    s.data)

/-! ## `datetime.strptime` / `strftime` for the fixed format
`"%Y-%m-%d %H:%M:%S"` (process.py lines 92-103) -/

/-- The six calendar fields parsed by the format `"%Y-%m-%d %H:%M:%S"`. -/
structure DateTime6 where
  year : Nat
  month : Nat
  day : Nat
  hour : Nat
  minute : Nat
  second : Nat
deriving DecidableEq

/-- Greedily read `1..maxLen` decimal digits (as `strptime` numeric
directives do); fails on zero digits. -/
def parseDigits (maxLen : Nat) (cs : List Char) : Option (Nat × List Char) :=
  let ds := (cs.take maxLen).takeWhile Char.isDigit
  if ds.isEmpty then none
  else some (ds.foldl (fun acc c => acc * 10 + (c.toNat - 48)) 0, cs.drop ds.length)

/-- Consume one expected literal character. -/
def expectChar (c : Char) (cs : List Char) : Option (List Char) :=
  match cs with
  | [] => none
  | x :: rest => if x == c then some rest else none

/-- Gregorian leap-year rule (used by `strptime` day-of-month
validation). -/
def isLeapYear (y : Nat) : Bool :=
  (y % 4 == 0 && y % 100 != 0) || y % 400 == 0

/-- Days in a month, for `strptime` day validation. -/
def daysInMonth (y m : Nat) : Nat :=
  if m == 2 then (if isLeapYear y then 29 else 28)
  else if m == 4 || m == 6 || m == 9 || m == 11 then 30
  else 31

/-- Model of `datetime.strptime(s, "%Y-%m-%d %H:%M:%S")`: the entire
input must match the format (no leftover text) and all fields must be in
range; on violation the Python call raises `ValueError`, modelled as
`none`. -/
def strptime_ymd_hms (s : String) : Option DateTime6 := do
  let cs := s.data
  let (y, cs) ← parseDigits 4 cs
  let cs ← expectChar '-' cs
  let (mo, cs) ← parseDigits 2 cs
  let cs ← expectChar '-' cs
  let (d, cs) ← parseDigits 2 cs
  let cs ← expectChar ' ' cs
  let (h, cs) ← parseDigits 2 cs
  let cs ← expectChar ':' cs
  let (mi, cs) ← parseDigits 2 cs
  let cs ← expectChar ':' cs
  let (sec, cs) ← parseDigits 2 cs
  if cs.isEmpty && 1 ≤ mo && mo ≤ 12 && 1 ≤ d && d ≤ daysInMonth y mo
      && h ≤ 23 && mi ≤ 59 && sec ≤ 61 then
    some ⟨y, mo, d, h, mi, sec⟩
  else
    none

/-- Model of `dt.strftime("%Y-%m-%d %H:%M:%S")`. -/
def strftime_ymd_hms (dt : DateTime6) : String :=
  padNum 4 dt.year ++ "-" ++ padNum 2 dt.month ++ "-" ++ padNum 2 dt.day ++ " " ++
  padNum 2 dt.hour ++ ":" ++ padNum 2 dt.minute ++ ":" ++ padNum 2 dt.second

/-- process.py lines 92-103, `convert_date_time`: parse with
`"%Y-%m-%d %H:%M:%S"`, re-render with the same format, then
`quote_plus` the result.  `strptime` raising `ValueError` is modelled
as `Except.error` (the function itself has no handler). -/
def convert_date_time (date_time : String) : Except String String :=
  match strptime_ymd_hms date_time with
  | none => Except.error "ValueError: time data does not match format %Y-%m-%d %H:%M:%S"
  | some dt => Except.ok (quote_plus (strftime_ymd_hms dt))

/-! ## Data model (objects.py) -/

/-- objects.py lines 10-19, `EnvironWRecordReadings`. -/
structure EnvironWRecordReadings where
  pressure : ℚ
  wind_speed : ℚ
  rain : ℚ
  wind_direction : ℤ
  humidity : ℚ
  temperature : ℚ
  light : ℚ
deriving DecidableEq

/-- objects.py lines 22-27, `EnvironWRecord` (the inbound event body;
the timestamp default factory renders `"%Y-%m-%dT%H:%M:%S.000Z"`). -/
structure EnvironWRecord where
  readings : EnvironWRecordReadings
  nickname : String
  timestamp : String
deriving DecidableEq

/-- objects.py lines 31-73, `WindyObservationRecord`, in the state it
has after `__post_init__` when every alternative-name field (`si`,
`stationId`, `dateutc`, `ts`, `tempf`, `windspeedmph`, `windgustmph`,
`rh`, `mbar`, `baromin`, `rainin`) was left at its default `None` —
which is how both construction sites in this repository
(`get_source_object`, `create_observation_record`) build it, so
`__post_init__` leaves every primary field unchanged. -/
structure WindyObservationRecord where
  temp : ℚ
  wind : ℚ
  windir : ℤ
  gust : ℚ
  humidity : ℚ
  dewpoint : ℚ
  pressure : ℚ
  precip : ℚ
  uv : ℚ
  station : ℤ
  time : String
deriving DecidableEq

/-- objects.py lines 111-114, the `Station` enumeration. -/
inductive Station where
  | OLLIVERHOME
  | LIZARDHUBS
deriving DecidableEq

/-- Python enum member `.name`. -/
def stationName : Station → String
  | Station.OLLIVERHOME => "OLLIVERHOME"
  | Station.LIZARDHUBS => "LIZARDHUBS"

/-- Python enum member `.value` (objects.py: `OLLIVERHOME = 0`,
`LIZARDHUBS = 1`). -/
def stationValue : Station → ℤ
  | Station.OLLIVERHOME => 0
  | Station.LIZARDHUBS => 1

/-- Iteration order of `for station in Station` (declaration order). -/
def stationList : List Station :=
  [Station.OLLIVERHOME, Station.LIZARDHUBS]

/-- Python `''.join(filter(str.isalnum, station_name)).upper()`
(process.py line 33), for the ASCII nicknames this system uses. -/
def normalize_station (station_name : String) : String :=
  String.mk ((station_name.data.filter Char.isAlphanum).map Char.toUpper)

/-- process.py lines 23-41, `get_station_value`: normalize the
nickname, scan the `Station` enumeration for a member whose name
matches exactly, return its value, defaulting to `0` on no match. -/
def get_station_value (station_name : String) : ℤ :=
  let normalized_input := normalize_station station_name
  match stationList.find? (fun station => stationName station == normalized_input) with
  | some station => stationValue station
  | none => 0

/-! ## Unit conversion library (process.py lines 44-89 and the
alternate-unit conversions of objects.py `__post_init__`) -/

/-- process.py line 53: `speed_mps * 2.23694`. -/
def mps_to_mph (speed_mps : ℚ) : ℚ := speed_mps * (223694 / 100000)

/-- process.py line 65: `(fahrenheit - 32) * 5 / 9`. -/
def fahrenheit_to_celsius (fahrenheit : ℚ) : ℚ := (fahrenheit - 32) * 5 / 9

/-- process.py line 78: `(celsius * 9 / 5) + 32`. -/
def celsius_to_fahrenheit (celsius : ℚ) : ℚ := (celsius * 9 / 5) + 32

/-- process.py line 89: `length_mm * 0.0393701`. -/
def mm_to_inches (length_mm : ℚ) : ℚ := length_mm * (393701 / 10000000)

/-- objects.py line 88 (`__post_init__`): `windspeedmph * 0.44704`,
the mph→m/s conversion applied to imperial wind-speed input. -/
def mph_to_mps (speed_mph : ℚ) : ℚ := speed_mph * (44704 / 100000)

/-- objects.py line 95 (`__post_init__`): `rainin * 25.4`, the
inches→mm conversion applied to imperial precipitation input. -/
def inches_to_mm (length_inches : ℚ) : ℚ := length_inches * (254 / 10)

/-! ## Rendering of Python numbers into f-strings -/

/-- Smallest exponent `k ≤ 10` with `q * 10^k` integral, if any. -/
def decExp (q : ℚ) : Option Nat :=
  (List.range 11).find? (fun k => (q * (10 : ℚ) ^ k).den == 1)

/-- Model of the Python float rendering used by an f-string, for the
terminating decimal values that arise in this pipeline: integral values
render with a trailing `.0`, other terminating decimals render with
their shortest decimal expansion. -/
def pyFloatStr (q : ℚ) : String :=
  match decExp q with
  | some 0 => toString q.num ++ ".0"
  | some (k + 1) =>
    let n := (q * (10 : ℚ) ^ (k + 1)).num
    let sign := if n < 0 then "-" else ""
    let a := n.natAbs
    sign ++ toString (a / 10 ^ (k + 1)) ++ "." ++ padNum (k + 1) (a % 10 ^ (k + 1))
  | none => toString q

/-! ## JSON serialization used by the Windy path
(`json.dumps(asdict(record), default=complex_handler)` and the
`requests.post(..., json=json_payload)` body) -/

/-- JSON string escaping (quote and backslash; the payload data here is
plain ASCII). -/
def jsonEscape (s : String) : String :=
  String.mk (flatMapChars
    (fun c =>
      if c == '\\' then ['\\', '\\']
      else if c == '"' then ['\\', '"']
      else [c])
    s.data)

/-- A JSON string literal. -/
def jsonStringLit (s : String) : String := "\"" ++ jsonEscape s ++ "\""

/-- `json.dumps(asdict(record), default=complex_handler)` for a
`WindyObservationRecord` built by this repository: all fields in
dataclass declaration order; the alternative-name fields are `None` at
every construction site in the source, so they serialize as `null`. -/
def windyRecordJson (r : WindyObservationRecord) : String :=
  "\x7b\"temp\": " ++ pyFloatStr r.temp ++
  ", \"wind\": " ++ pyFloatStr r.wind ++
  ", \"windir\": " ++ toString r.windir ++
  ", \"gust\": " ++ pyFloatStr r.gust ++
  ", \"humidity\": " ++ pyFloatStr r.humidity ++
  ", \"dewpoint\": " ++ pyFloatStr r.dewpoint ++
  ", \"pressure\": " ++ pyFloatStr r.pressure ++
  ", \"precip\": " ++ pyFloatStr r.precip ++
  ", \"uv\": " ++ pyFloatStr r.uv ++
  ", \"si\": null, \"stationId\": null, \"dateutc\": null, \"ts\": null" ++
  ", \"tempf\": null, \"windspeedmph\": null, \"windgustmph\": null" ++
  ", \"rh\": null, \"mbar\": null, \"baromin\": null, \"rainin\": null" ++
  ", \"station\": " ++ toString r.station ++
  ", \"time\": " ++ jsonStringLit r.time ++ "\x7d"

/-- The Windy publish payload `{'observations': [...]}` (process.py
lines 245-247): a list of individually JSON-serialized record
strings. -/
structure WindyPayload where
  observations : List String
deriving DecidableEq

/-- The request body `requests.post(..., json=json_payload)` sends:
the payload dict serialized as JSON (each observation entry is itself a
JSON string literal — the double encoding of the Windy contract). -/
def windyPayloadJson (p : WindyPayload) : String :=
  "\x7b\"observations\": [" ++
    String.intercalate ", " (p.observations.map jsonStringLit) ++ "]\x7d"

/-! ## The outbound HTTP layer -/

/-- One outbound HTTP request as issued by `requests`. -/
inductive HttpRequest where
  | post (url : String) (body : String) (contentType : String)
  | get (url : String)
deriving DecidableEq

/-- A completed HTTP response (`requests.Response`). -/
structure HttpResponse where
  status_code : ℤ
  text : String
deriving DecidableEq

/-- `os.environ`: a lookup from variable names to optional values. -/
def Env : Type := String → Option String

/-- The network oracle: `none` models
`requests.exceptions.RequestException` (connection failure, timeout,
protocol fault), `some r` a completed response `r` of any status. -/
def Net : Type := HttpRequest → Option HttpResponse

/-! ## Formatters and publishers (process.py) -/

/-- process.py lines 105-132, `get_source_object`: build the one-element
list of `WindyObservationRecord`s from the inbound event.  Field by
field from the source: `temp`, `wind`, `windir` from the readings,
`gust=0`, `humidity` from the readings, `dewpoint=0`, `pressure` and
`precip` (rain) from the readings, `uv` from the `light` reading,
`station` from the resolver, `time` passed through. -/
def get_source_object (event : EnvironWRecord) : List WindyObservationRecord :=
  let station := get_station_value event.nickname
  [⟨event.readings.temperature, event.readings.wind_speed,
    event.readings.wind_direction, 0, event.readings.humidity, 0,
    event.readings.pressure, event.readings.rain, event.readings.light,
    station, event.timestamp⟩]

/-- process.py lines 147-181, `post_records_windy`: fail fast if
`WINDY_API_KEY` is absent (no network call); otherwise POST the JSON
payload to the key-templated URL.  A `RequestException` is caught and
yields `False`; on every completed response the function falls through
to `return True` — the comparison of `response.status_code` with the
local `success_status_code = 200` only selects which message is
printed and does not affect the returned value. -/
def post_records_windy (env : Env) (net : Net) (json_payload : WindyPayload) :
    Bool × List HttpRequest :=
  match env "WINDY_API_KEY" with
  | none => (false, [])
  | some api_key =>
    let endpoint_url := "https://stations.windy.com/pws/update/" ++ api_key
    let req := HttpRequest.post endpoint_url (windyPayloadJson json_payload) "application/json"
    match net req with
    | none => (false, [req])
    | some _response => (true, [req])

/-- The Wunderground endpoint URL (process.py line 214). -/
def url_wunderground : String :=
  "https://weatherstation.wunderground.com/weatherstation/updateweatherstation.php"

/-- The query-parameter f-string of process.py line 221, chunk by
chunk (literal text interleaved with the interpolated values);
`dateutc` takes the already-converted, percent-encoded timestamp. -/
def wundergroundParameters (station_id station_key dateutc : String)
    (r : EnvironWRecordReadings) : String :=
  "ID=" ++ station_id ++ "&" ++
  "PASSWORD=" ++ station_key ++ "&" ++
  "dateutc=" ++ dateutc ++ "&" ++
  "winddir=" ++ toString r.wind_direction ++ "&" ++
  "windspeedmph=" ++ pyFloatStr (mps_to_mph r.wind_speed) ++ "&" ++
  "tempf=" ++ pyFloatStr (celsius_to_fahrenheit r.temperature) ++ "&" ++
  "rainin=" ++ pyFloatStr (mm_to_inches r.rain) ++ "&" ++
  "humidity=" ++ pyFloatStr r.humidity ++ "&" ++
  "baromin=" ++ pyFloatStr r.pressure ++ "&" ++
  "action=updateraw"

/-- process.py lines 205-228, `post_records_wunderground`: look up the
per-station credentials (keyed by the resolved numeric station ID); if
either is absent return `False` with no network call.  Otherwise build
the query string and GET it.  Only `requests.exceptions.RequestException`
is caught (yielding `False`); the `ValueError` that
`convert_date_time` can raise is not handled and propagates
(`Except.error`). -/
def post_records_wunderground (env : Env) (net : Net) (event : EnvironWRecord) :
    Except String Bool × List HttpRequest :=
  let sid := env ("WUNDERGROUND_STATION_ID_" ++ toString (get_station_value event.nickname))
  let skey := env ("WUNDERGROUND_STATION_KEY_" ++ toString (get_station_value event.nickname))
  match sid, skey with
  | some station_id, some station_key =>
    match convert_date_time event.timestamp with
    | Except.error e => (Except.error e, [])
    | Except.ok dateutc =>
      let parameters := wundergroundParameters station_id station_key dateutc event.readings
      let req := HttpRequest.get (url_wunderground ++ "?" ++ parameters)
      match net req with
      | none => (Except.ok false, [req])
      | some _result => (Except.ok true, [req])
  | _, _ => (Except.ok false, [])

/-- process.py lines 231-249, `process_windy_records`: serialize the
records from `get_source_object` and delegate to
`post_records_windy`. -/
def process_windy_records (env : Env) (net : Net) (event : EnvironWRecord) :
    Bool × List HttpRequest :=
  let weather_records := get_source_object event
  let observations := weather_records.map (fun record => windyRecordJson record)
  post_records_windy env net ⟨observations⟩

/-! ## The Lambda orchestrator (lambda_handler.py) -/

/-- The fields of `APIGatewayProxyEvent` the handler reads. -/
structure APIGatewayProxyEvent where
  path : String
  http_method : String
  json_body : EnvironWRecord
deriving DecidableEq

/-- The dict the handler returns. -/
structure LambdaResponse where
  statusCode : ℤ
  contentType : String
  body : String
deriving DecidableEq

/-- `json.dumps({'message': 'POST request processed successfully'})`. -/
def successBody : String := "\x7b\"message\": \"POST request processed successfully\"\x7d"

/-- `json.dumps({'message': 'POST Processing failed'})`. -/
def failureBody : String := "\x7b\"message\": \"POST Processing failed\"\x7d"

/-- lambda_handler.py lines 27-58, `handler`: on a POST whose path
contains `weather`, run the Windy pipeline, then (unconditionally) the
Wunderground publisher; return 200 with the success body when both
returned `True`, otherwise 400 with the failure body.  An exception
raised by `post_records_wunderground` is not handled here and
propagates out of the Lambda (`Except.error`). -/
def handler (env : Env) (net : Net) (event : APIGatewayProxyEvent) :
    Except String LambdaResponse × List HttpRequest :=
  if strContains event.path "weather" && (event.http_method == "POST") then
    let result_windy := process_windy_records env net event.json_body
    let result_wunderground := post_records_wunderground env net event.json_body
    match result_wunderground.1 with
    | Except.error e => (Except.error e, result_windy.2 ++ result_wunderground.2)
    | Except.ok ok_wunderground =>
      if result_windy.1 && ok_wunderground then
        (Except.ok ⟨200, "application/json", successBody⟩,
          result_windy.2 ++ result_wunderground.2)
      else
        (Except.ok ⟨400, "application/json", failureBody⟩,
          result_windy.2 ++ result_wunderground.2)
  else
    (Except.ok ⟨400, "application/json", failureBody⟩, [])

/-! ## Spec-side definition for the Formatter B refinement claim -/

/-- Modelled from the spec: "Values are concatenated with `&`". -/
def ampJoin : List String → String
  | [] => ""
  | [p] => p
  | p :: ps => p ++ "&" ++ ampJoin ps

/-- Modelled from the spec (section 4.5): the query string holds exactly
the parameters `ID`, `PASSWORD`, `dateutc`, `winddir`, `windspeedmph`,
`tempf`, `rainin`, `humidity`, `baromin` and the literal
`action=updateraw`, joined with `&`, keys unencoded, temperature via
`celsius_to_fahrenheit`, wind speed via `mps_to_mph`, precipitation via
`mm_to_inches`, pressure passed through unconverted, and only the
timestamp value percent-encoded (here `dateutc` is that already
percent-encoded timestamp). -/
def specFormatterBQuery (station_id station_key dateutc : String)
    (r : EnvironWRecordReadings) : String :=
  ampJoin
    ["ID=" ++ station_id,
     "PASSWORD=" ++ station_key,
     "dateutc=" ++ dateutc,
     "winddir=" ++ toString r.wind_direction,
     "windspeedmph=" ++ pyFloatStr (mps_to_mph r.wind_speed),
     "tempf=" ++ pyFloatStr (celsius_to_fahrenheit r.temperature),
     "rainin=" ++ pyFloatStr (mm_to_inches r.rain),
     "humidity=" ++ pyFloatStr r.humidity,
     "baromin=" ++ pyFloatStr r.pressure,
     "action=updateraw"]

/-! ## Concrete fixtures for counterexamples and witnesses -/

/-- An environment with no variables set at all. -/
def emptyEnv : Env := fun _ => none

/-- A network oracle on which every request faults
(`RequestException`); used where no call is expected anyway. -/
def noNet : Net := fun _ => none

/-- An environment providing only the Windy API key. -/
def windyOnlyEnv : Env :=
  fun k => if k == "WINDY_API_KEY" then some "testkey" else none

/-- An environment providing the Windy key and Wunderground credentials
for station IDs 0 and 1. -/
def fullEnv : Env :=
  fun k =>
    if k == "WINDY_API_KEY" then some "testkey"
    else if k == "WUNDERGROUND_STATION_ID_0" then some "WID0"
    else if k == "WUNDERGROUND_STATION_KEY_0" then some "WKEY0"
    else if k == "WUNDERGROUND_STATION_ID_1" then some "WID1"
    else if k == "WUNDERGROUND_STATION_KEY_1" then some "WKEY1"
    else none

/-- A network oracle answering every request with HTTP 404. -/
def net404 : Net := fun _ => some ⟨404, "Not Found"⟩

/-- A network oracle answering every request with HTTP 200. -/
def net200 : Net := fun _ => some ⟨200, "success"⟩

/-- The end-to-end sample readings of spec section 8. -/
def sampleReadings : EnvironWRecordReadings :=
  ⟨101300, 3, 1, 180, 55, 45 / 2, 500⟩

/-- The end-to-end sample event of the spec: canonical ISO-8601 UTC
timestamp with millisecond precision and trailing `Z`. -/
def evCanonical : EnvironWRecord :=
  ⟨sampleReadings, "LizardHubs", "2024-01-01T12:00:00.000Z"⟩

/-- The same event with a timestamp already in the
`"%Y-%m-%d %H:%M:%S"` shape that `convert_date_time` parses. -/
def evPlain : EnvironWRecord :=
  ⟨sampleReadings, "LizardHubs", "2024-01-01 12:00:00"⟩

/-- An event whose `light` reading is 500 and whose temperature is
20.0 °C (for the Formatter A field claims). -/
def evLight500 : EnvironWRecord :=
  ⟨⟨101300, 3, 1, 180, 55, 20, 500⟩, "Olliver Home", "2024-01-01T12:00:00.000Z"⟩

/-- A weather POST API-gateway event carrying the canonical-timestamp
body. -/
def gwEventCanonical : APIGatewayProxyEvent :=
  ⟨"/prod/weather", "POST", evCanonical⟩

/-! ## Helper lemmas -/

/-- The f-string of process.py line 221 produces exactly the
spec-described query string: the same parameters, in the same order,
joined with ampersands. -/
theorem wunderground_parameters_eq_spec (sid skey enc : String) (r : EnvironWRecordReadings) :
    wundergroundParameters sid skey enc r = specFormatterBQuery sid skey enc r := by
  simp only [wundergroundParameters, specFormatterBQuery, ampJoin, String.append_assoc]

/-! ## Claim theorems -/

/-- C1: the claim that Publisher A succeeds exactly on HTTP 200 fails
on the code.  With the API key configured and the network returning a
completed HTTP 404 response, `post_records_windy` still returns `True`:
the comparison with 200 in the source only selects a log message, and
the function falls through to `return True` for every completed
response. -/
theorem windy_publish_succeeds_despite_http_404 :
    (404 : ℤ) ≠ 200 ∧
    net404 (HttpRequest.post "https://stations.windy.com/pws/update/testkey"
      (windyPayloadJson ⟨[]⟩) "application/json") = some ⟨404, "Not Found"⟩ ∧
    post_records_windy windyOnlyEnv net404 ⟨[]⟩ =
      (true, [HttpRequest.post "https://stations.windy.com/pws/update/testkey"
        (windyPayloadJson ⟨[]⟩) "application/json"]) :=
  ⟨by decide, rfl, rfl⟩

/-- C2: the claim that Formatter B reformats the canonical ISO-8601
millisecond-`Z` timestamp fails on the code: `convert_date_time`
parses with the strict format `"%Y-%m-%d %H:%M:%S"`, which rejects
`"2024-01-01T12:00:00.000Z"` (the repository builds exactly this shape
as the default `EnvironWRecord` timestamp), so the call raises
`ValueError` instead of stripping the suffix. -/
theorem convert_date_time_raises_on_canonical_iso_timestamp :
    convert_date_time "2024-01-01T12:00:00.000Z" =
      Except.error "ValueError: time data does not match format %Y-%m-%d %H:%M:%S" := rfl

/-- C3: the claim that no raised exception leaves a publish attempt
fails on the code.  On the spec sample event with its canonical
ISO timestamp and full credentials, `post_records_wunderground`
terminates with an uncaught `ValueError` (only
`requests.exceptions.RequestException` is caught), before any
network call. -/
theorem wunderground_publish_raises_uncaught_valueerror :
    post_records_wunderground fullEnv net200 evCanonical =
      (Except.error "ValueError: time data does not match format %Y-%m-%d %H:%M:%S", []) := rfl

/-- C4: the claim that every inbound weather POST event yields HTTP 200
or HTTP 400 fails on the code.  On a weather POST carrying the
canonical-timestamp body, with all credentials configured and every
endpoint answering 200, the handler terminates with the uncaught
`ValueError` raised inside `post_records_wunderground` — no 400
response with the failure body is produced. -/
theorem handler_propagates_valueerror_instead_of_http_400 :
    (handler fullEnv net200 gwEventCanonical).1 =
      Except.error "ValueError: time data does not match format %Y-%m-%d %H:%M:%S" := rfl

/-- C5 counterexample: the claim that Formatter A includes `uv` with
the neutral default 0 is false at a concrete input — with the `light`
reading 500, the produced record has `uv = 500`, not 0. -/
theorem formatterA_uv_not_zero_counterexample :
    ((get_source_object evLight500).map fun r => r.uv) = [500] ∧ (500 : ℚ) ≠ 0 :=
  ⟨rfl, by norm_num⟩

/-- C5 (amended): for every inbound record, Formatter A includes
`dewpoint` (and `gust`) with the neutral default 0, populates `uv`
from the `light` reading rather than defaulting it, and passes the
temperature through in degrees Celsius unconverted. -/
theorem formatterA_field_defaults_amended (ev : EnvironWRecord) :
    (get_source_object ev).map (fun r => (r.dewpoint, r.gust, r.uv, r.temp)) =
      [(0, 0, ev.readings.light, ev.readings.temperature)] := rfl

/-- C6: whenever the credentials resolve and the timestamp conversion
succeeds with percent-encoded value `enc`, Publisher B issues exactly
one GET whose query string is exactly the parameters `ID`, `PASSWORD`,
`dateutc`, `winddir`, `windspeedmph`, `tempf`, `rainin`, `humidity`,
`baromin` and the literal `action=updateraw`, joined with `&`, keys
unencoded, only the timestamp percent-encoded, with temperature via
`celsius_to_fahrenheit`, wind speed via `mps_to_mph`, precipitation via
`mm_to_inches`, and pressure passed through unconverted. -/
theorem formatterB_query_exact_parameters (env : Env) (net : Net) (ev : EnvironWRecord)
    (sid skey enc : String)
    (hsid : env ("WUNDERGROUND_STATION_ID_" ++ toString (get_station_value ev.nickname)) = some sid)
    (hskey : env ("WUNDERGROUND_STATION_KEY_" ++ toString (get_station_value ev.nickname)) = some skey)
    (henc : convert_date_time ev.timestamp = Except.ok enc) :
    (post_records_wunderground env net ev).2 =
      [HttpRequest.get (url_wunderground ++ "?" ++ specFormatterBQuery sid skey enc ev.readings)] := by
  have hq : wundergroundParameters sid skey enc ev.readings =
      specFormatterBQuery sid skey enc ev.readings :=
    wunderground_parameters_eq_spec sid skey enc ev.readings
  simp only [post_records_wunderground, hsid, hskey, henc, hq]
  cases hnet : net (HttpRequest.get (url_wunderground ++ "?" ++
      specFormatterBQuery sid skey enc ev.readings)) <;> simp [hnet]

/-- C6 witness: concrete instantiation at the spec sample readings with
a parseable timestamp and station `LizardHubs` (ID 1). -/
theorem formatterB_query_exact_parameters_witness :
    convert_date_time "2024-01-01 12:00:00" = Except.ok "2024-01-01+12%3A00%3A00" ∧
    (post_records_wunderground fullEnv net200 evPlain).2 =
      [HttpRequest.get (url_wunderground ++ "?" ++
        specFormatterBQuery "WID1" "WKEY1" "2024-01-01+12%3A00%3A00" evPlain.readings)] :=
  ⟨rfl, formatterB_query_exact_parameters fullEnv net200 evPlain "WID1" "WKEY1"
    "2024-01-01+12%3A00%3A00" rfl rfl rfl⟩

/-- C7: the resolver strips non-alphanumeric characters, upper-cases,
and looks up the fixed station set: `"Olliver Home"`, `"olliverhome"`
and `"OLLIVER-HOME!"` all resolve to the same ID (0),
`"unknown-station"` resolves to 0, and on every input the result is a
value of the closed station set or the 0 default (the function is
total — it never raises). -/
theorem station_resolver_normalizes_and_defaults :
    get_station_value "Olliver Home" = 0 ∧
    get_station_value "olliverhome" = 0 ∧
    get_station_value "OLLIVER-HOME!" = 0 ∧
    get_station_value "unknown-station" = 0 ∧
    ∀ s : String, get_station_value s = 0 ∨ get_station_value s = 1 := by
  refine ⟨rfl, rfl, rfl, rfl, ?_⟩
  intro s
  rcases hf : stationList.find? (fun station => stationName station == normalize_station s)
    with _ | st
  · left; simp [get_station_value, hf]
  · cases st
    · left; simp [get_station_value, hf, stationValue]
    · right; simp [get_station_value, hf, stationValue]

/-- C8: each publisher fails fast, with no network call, when its
required configuration is absent: Publisher A when `WINDY_API_KEY` is
unset, Publisher B when either station credential (keyed by the
resolved numeric station ID) is unset. -/
theorem publishers_fail_fast_without_config :
    (∀ (env : Env) (net : Net) (p : WindyPayload), env "WINDY_API_KEY" = none →
      post_records_windy env net p = (false, [])) ∧
    (∀ (env : Env) (net : Net) (ev : EnvironWRecord),
      (env ("WUNDERGROUND_STATION_ID_" ++ toString (get_station_value ev.nickname)) = none ∨
       env ("WUNDERGROUND_STATION_KEY_" ++ toString (get_station_value ev.nickname)) = none) →
      post_records_wunderground env net ev = (Except.ok false, [])) := by
  constructor
  · intro env net p h
    simp [post_records_windy, h]
  · intro env net ev h
    rcases h with h | h
    · simp [post_records_wunderground, h]
    · rcases hsid : env ("WUNDERGROUND_STATION_ID_" ++ toString (get_station_value ev.nickname))
        with _ | sid
      · simp [post_records_wunderground, hsid]
      · simp [post_records_wunderground, hsid, h]

/-- C8 witness: with an entirely empty environment, both publishers
return failure and issue no request. -/
theorem publishers_fail_fast_without_config_witness :
    post_records_windy emptyEnv noNet ⟨[]⟩ = (false, []) ∧
    post_records_wunderground emptyEnv noNet evCanonical = (Except.ok false, []) :=
  ⟨publishers_fail_fast_without_config.1 emptyEnv noNet ⟨[]⟩ rfl,
   publishers_fail_fast_without_config.2 emptyEnv noNet evCanonical (Or.inl rfl)⟩

/-- C9: over the exact-rational model of the float arithmetic, the
temperature round trip is exact and the speed and length round trips
(`mph_to_mps` being multiplication by 0.44704 and `inches_to_mm` by
25.4, as in the `WindyObservationRecord` post-init conversions) return
to within a relative error of 2·10⁻⁶ of the input, for every input. -/
theorem unit_conversion_roundtrips (x : ℚ) :
    fahrenheit_to_celsius (celsius_to_fahrenheit x) = x ∧
    |mph_to_mps (mps_to_mph x) - x| ≤ 2 / 1000000 * |x| ∧
    |mm_to_inches (inches_to_mm x) - x| ≤ 2 / 1000000 * |x| := by
  refine ⟨by unfold fahrenheit_to_celsius celsius_to_fahrenheit; ring, ?_, ?_⟩
  · have h : mph_to_mps (mps_to_mph x) - x = 16576 / 10000000000 * x := by
      unfold mph_to_mps mps_to_mph; ring
    rw [h, abs_mul, abs_of_nonneg (by norm_num : (0:ℚ) ≤ 16576 / 10000000000)]
    exact mul_le_mul_of_nonneg_right (by norm_num) (abs_nonneg x)
  · have h : mm_to_inches (inches_to_mm x) - x = 54 / 100000000 * x := by
      unfold mm_to_inches inches_to_mm; ring
    rw [h, abs_mul, abs_of_nonneg (by norm_num : (0:ℚ) ≤ 54 / 100000000)]
    exact mul_le_mul_of_nonneg_right (by norm_num) (abs_nonneg x)

/-- C10: the known station `OLLIVERHOME` has numeric ID 0, the same
value the resolver returns for unmatched nicknames, so every nickname
normalizing to `OLLIVERHOME` and every unrecognized nickname resolve
alike to 0 — downstream consumers keyed on the station ID cannot tell
them apart. -/
theorem olliverhome_id_collides_with_sentinel :
    stationValue Station.OLLIVERHOME = 0 ∧
    (∀ s : String, normalize_station s = "OLLIVERHOME" → get_station_value s = 0) ∧
    (∀ s : String, normalize_station s ≠ "OLLIVERHOME" → normalize_station s ≠ "LIZARDHUBS" →
      get_station_value s = 0) := by
  refine ⟨rfl, ?_, ?_⟩
  · intro s h
    simp only [get_station_value, h]
    rfl
  · intro s h1 h2
    have e1 : (stationName Station.OLLIVERHOME == normalize_station s) = false :=
      beq_eq_false_iff_ne.mpr (Ne.symm h1)
    have e2 : (stationName Station.LIZARDHUBS == normalize_station s) = false :=
      beq_eq_false_iff_ne.mpr (Ne.symm h2)
    simp [get_station_value, stationList, List.find?, e1, e2]

/-- C10 witness: the `OLLIVERHOME` nickname and an unknown nickname
both resolve to 0. -/
theorem olliverhome_id_collides_with_sentinel_witness :
    get_station_value "Olliver Home" = 0 ∧ get_station_value "unknown-station" = 0 :=
  ⟨olliverhome_id_collides_with_sentinel.2.1 "Olliver Home" rfl,
   olliverhome_id_collides_with_sentinel.2.2 "unknown-station" (by decide) (by decide)⟩
